import Mathlib

/-!
launchpad.hpp: input decoding and the differential light cache

A shallow embedding of `src/launchpad.hpp`.

* The `int` arrays of the class (`int gridLightQueue[8 * 8]`, ...) are total
  functions on `Fin 64` / `Fin 8` with values in `Int`.
* A store `a[i] = v` whose index lies outside the array is undefined behaviour
  in C++; the embedding returns `none` there (`storeAt`).  `none` is *not* an
  error value of the program: the program has none.
* `midiOut` is the device the class writes to; it is embedded as the list of
  messages handed to `sendMessage`, oldest first.
* A MIDI message (`vector<unsigned char>`) is a list of bytes, each byte a
  natural number below 256.  Reading `data[k]` past the end of the vector is
  undefined behaviour, again `none`.
-/

set_option linter.dupNamespace false

/-- The top row buttons of the launchpad: `enum class LaunchpadTopButton`, whose
underlying type is `int`.  The handler builds values from arbitrary integers
(`LaunchpadTopButton(data[1] - 104)`), so the embedding keeps the ordinal. -/
structure LaunchpadTopButton where
  ord : Int
  deriving DecidableEq, Repr

namespace LaunchpadTopButton

def UP : LaunchpadTopButton := ⟨0⟩
def DOWN : LaunchpadTopButton := ⟨1⟩
def LEFT : LaunchpadTopButton := ⟨2⟩
def RIGHT : LaunchpadTopButton := ⟨3⟩
def SESSION : LaunchpadTopButton := ⟨4⟩
def USER1 : LaunchpadTopButton := ⟨5⟩
def USER2 : LaunchpadTopButton := ⟨6⟩
def MIXER : LaunchpadTopButton := ⟨7⟩

end LaunchpadTopButton

/-- The state of a button on the grid. -/
structure LaunchpadGridButtonState where
  x : Int
  y : Int
  pressed : Bool
  deriving DecidableEq, Repr

/-- The state of a top button. -/
structure LaunchpadTopButtonState where
  button : LaunchpadTopButton
  pressed : Bool
  deriving DecidableEq, Repr

/-- The state of a side row button; 0 is the lowest button. -/
structure LaunchpadRowButtonState where
  rowIndex : Int
  pressed : Bool
  deriving DecidableEq, Repr

/-- The members of `class Launchpad`.  `midiOut` holds the messages sent so far;
`midiIn` only registers the callback and carries no state of its own. -/
structure Launchpad where
  midiOut : List (List Nat)
  gridQueue : List LaunchpadGridButtonState
  topQueue : List LaunchpadTopButtonState
  rowQueue : List LaunchpadRowButtonState
  gridLightQueue : Fin 64 → Int
  gridCachedLightQueue : Fin 64 → Int
  topLightQueue : Fin 8 → Int
  topCachedLightQueue : Fin 8 → Int
  rowLightQueue : Fin 8 → Int
  rowCachedLightQueue : Fin 8 → Int

/-- The conversion `(unsigned char)v` of an `int`: reduction modulo 256. -/
def toUChar (v : Int) : Nat := (v % 256).toNat

/-- The store `a[i] = v` into an `int a[n]`.  An index outside `0 .. n-1` is an
out-of-bounds write, undefined in C++: `none`. -/
def storeAt {n : Nat} (a : Fin n → Int) (i : Int) (v : Int) : Option (Fin n → Int) :=
  if h : 0 ≤ i ∧ i < (n : Int) then
    some (Function.update a ⟨i.toNat, by omega⟩ v)
  else none

/-- The callback `launchpadEventHandler(deltaTime, message, userData)`;
`deltaTime` is not used by the body and `userData` is the `Launchpad`.
`(data[1] - 19) / 10` and `(data[1] - 11) / 10` are `int` divisions, which
truncate toward zero. -/
def launchpadEventHandler (message : List Nat) (lp : Launchpad) : Option Launchpad :=
  let data : List Nat := message
  match (data[0]? : Option Nat) with
  | none => none
  | some d0 =>
    if d0 = 144 then
      match (data[1]? : Option Nat) with
      | none => none
      | some d1 =>
        if d1 % 10 = 9 then
          let rowIndex : Int := Int.tdiv ((d1 : Int) - 19) 10
          match (data[2]? : Option Nat) with
          | none => none
          | some d2 =>
            some { lp with
              rowQueue := lp.rowQueue ++ [{ rowIndex := rowIndex, pressed := decide (d2 = 127) }] }
        else
          let x : Int := ((d1 % 10 : Nat) : Int) - 1
          let y : Int := Int.tdiv ((d1 : Int) - 11) 10
          match (data[2]? : Option Nat) with
          | none => none
          | some d2 =>
            some { lp with
              gridQueue := lp.gridQueue ++ [{ x := x, y := 7 - y, pressed := decide (d2 = 127) }] }
    else if d0 = 176 then
      match (data[1]? : Option Nat) with
      | none => none
      | some d1 =>
        let tb : LaunchpadTopButton := ⟨(d1 : Int) - 104⟩
        match (data[2]? : Option Nat) with
        | none => none
        | some d2 =>
          some { lp with topQueue := lp.topQueue ++ [{ button := tb, pressed := decide (d2 = 127) }] }
    else
      some lp

/-- The method `setGridLight(int x, int y, unsigned char color)`: the argument is
converted to `unsigned char` at the call, then stored at `y * 8 + x`. -/
def Launchpad.setGridLight (lp : Launchpad) (x y : Int) (color : Nat) : Option Launchpad :=
  (storeAt lp.gridLightQueue (y * 8 + x) ((color % 256 : Nat) : Int)).map
    fun a => { lp with gridLightQueue := a }

/-- The method `setRowLight(int rowIndex, int color)`. -/
def Launchpad.setRowLight (lp : Launchpad) (rowIndex : Int) (color : Int) : Option Launchpad :=
  (storeAt lp.rowLightQueue rowIndex color).map fun a => { lp with rowLightQueue := a }

/-- The method `setTopLight(LaunchpadTopButton btn, int color)`. -/
def Launchpad.setTopLight (lp : Launchpad) (btn : LaunchpadTopButton) (color : Int) :
    Option Launchpad :=
  (storeAt lp.topLightQueue btn.ord color).map fun a => { lp with topLightQueue := a }

/-- One pass of the grid loop of `updateLights`, at index `i` (`0 ≤ i < 64`, so
`%` and `/` are those of the natural numbers). -/
def Launchpad.updateGridLight (updateAll : Bool) (lp : Launchpad) (i : Fin 64) : Launchpad :=
  if lp.gridCachedLightQueue i ≠ lp.gridLightQueue i ∨ updateAll = true then
    let x := i.val % 8
    let y := 7 - i.val / 8
    let data : List Nat := [144 % 256, (x + (y * 10) + 11) % 256, toUChar (lp.gridLightQueue i)]
    { lp with
      midiOut := lp.midiOut ++ [data]
      gridCachedLightQueue := Function.update lp.gridCachedLightQueue i (lp.gridLightQueue i) }
  else lp

/-- One pass of the row loop of `updateLights`. -/
def Launchpad.updateRowLight (updateAll : Bool) (lp : Launchpad) (i : Fin 8) : Launchpad :=
  if lp.rowCachedLightQueue i ≠ lp.rowLightQueue i ∨ updateAll = true then
    let data : List Nat := [144 % 256, (19 + (10 * i.val)) % 256, toUChar (lp.rowLightQueue i)]
    { lp with
      midiOut := lp.midiOut ++ [data]
      rowCachedLightQueue := Function.update lp.rowCachedLightQueue i (lp.rowLightQueue i) }
  else lp

/-- One pass of the top loop of `updateLights`. -/
def Launchpad.updateTopLight (updateAll : Bool) (lp : Launchpad) (i : Fin 8) : Launchpad :=
  if lp.topCachedLightQueue i ≠ lp.topLightQueue i ∨ updateAll = true then
    let data : List Nat := [176 % 256, (104 + i.val) % 256, toUChar (lp.topLightQueue i)]
    { lp with
      midiOut := lp.midiOut ++ [data]
      topCachedLightQueue := Function.update lp.topCachedLightQueue i (lp.topLightQueue i) }
  else lp

/-- The method `updateLights(bool updateAll)`: the grid loop, then the row loop,
then the top loop. -/
def Launchpad.updateLights (lp : Launchpad) (updateAll : Bool) : Launchpad :=
  let lp := (List.finRange 64).foldl (Launchpad.updateGridLight updateAll) lp
  let lp := (List.finRange 8).foldl (Launchpad.updateRowLight updateAll) lp
  (List.finRange 8).foldl (Launchpad.updateTopLight updateAll) lp

/-- The method `resetGridLights()`: `setGridLight(x, y, 0)` for `y`, then `x`,
from 0 to 7. -/
def Launchpad.resetGridLights (lp : Launchpad) : Option Launchpad :=
  (List.range 8).foldlM
    (fun lp (y : Nat) => (List.range 8).foldlM (fun lp (x : Nat) => lp.setGridLight (x : Int) (y : Int) 0) lp) lp

/-- The method `resetTopLights()`; its body calls `setRowLight(i, 0)`. -/
def Launchpad.resetTopLights (lp : Launchpad) : Option Launchpad :=
  (List.range 8).foldlM (fun lp (i : Nat) => lp.setRowLight (i : Int) 0) lp

/-- The method `resetRowLights()`; its body calls
`setTopLight((LaunchpadTopButton)i, 0)`. -/
def Launchpad.resetRowLights (lp : Launchpad) : Option Launchpad :=
  (List.range 8).foldlM (fun lp (i : Nat) => lp.setTopLight ⟨(i : Int)⟩ 0) lp

/-- The constructor `Launchpad(int portNumber)`.  It opens the ports (a fresh
`midiOut`), the three event vectors start empty, and the three desired arrays
are filled with `-1`.  The three cached arrays are not written by the
constructor: their contents are whatever the storage holds, here the arguments
`gridCached`, `topCached`, `rowCached`. -/
def Launchpad.Launchpad (portNumber : Int) (gridCached : Fin 64 → Int)
    (topCached rowCached : Fin 8 → Int) : Launchpad :=
  let _ := portNumber
  { midiOut := []
    gridQueue := []
    topQueue := []
    rowQueue := []
    gridLightQueue := fun _ => -1
    gridCachedLightQueue := gridCached
    topLightQueue := fun _ => -1
    topCachedLightQueue := topCached
    rowLightQueue := fun _ => -1
    rowCachedLightQueue := rowCached }

/-! ## Messages, reference states and predicates used in the statements -/

/-- The bytes the grid loop sends for index `i` when the desired value is `v`. -/
def gridLightData (i : Fin 64) (v : Int) : List Nat :=
  [144 % 256, (i.val % 8 + ((7 - i.val / 8) * 10) + 11) % 256, toUChar v]

/-- The bytes the row loop sends for index `i` when the desired value is `v`. -/
def rowLightData (i : Fin 8) (v : Int) : List Nat :=
  [144 % 256, (19 + (10 * i.val)) % 256, toUChar v]

/-- The bytes the top loop sends for index `i` when the desired value is `v`. -/
def topLightData (i : Fin 8) (v : Int) : List Nat :=
  [176 % 256, (104 + i.val) % 256, toUChar v]

/-- The messages a diffing loop sends over the indices `l`: one for every index
whose cached value differs from the desired one, or for every index when
`updateAll` is set. -/
def lightMessages {n : Nat} (enc : Fin n → Int → List Nat) (updateAll : Bool)
    (desired cached : Fin n → Int) (l : List (Fin n)) : List (List Nat) :=
  l.filterMap fun i =>
    if cached i ≠ desired i ∨ updateAll = true then some (enc i (desired i)) else none

/-- The cached array after a diffing loop over the indices `l`. -/
def syncedOn {n : Nat} (desired cached : Fin n → Int) (l : List (Fin n)) : Fin n → Int :=
  fun j => if j ∈ l then desired j else cached j

/-- Everything `updateLights` sends, in sending order. -/
def sentMessages (lp : Launchpad) (updateAll : Bool) : List (List Nat) :=
  lightMessages gridLightData updateAll lp.gridLightQueue lp.gridCachedLightQueue (List.finRange 64)
    ++ lightMessages rowLightData updateAll lp.rowLightQueue lp.rowCachedLightQueue (List.finRange 8)
    ++ lightMessages topLightData updateAll lp.topLightQueue lp.topCachedLightQueue (List.finRange 8)

/-- The wire message for the grid light at `(x, y)` with value `v`, as the
specification words it: `[0x90, x + (7 - y) * 10 + 11, v]`. -/
def gridWire (x y : Nat) (v : Int) : List Nat := [0x90, x + (7 - y) * 10 + 11, v.toNat]

/-- The wire message for row light `i` with value `v`: `[0x90, 19 + 10 * i, v]`. -/
def rowWire (i : Nat) (v : Int) : List Nat := [0x90, 19 + 10 * i, v.toNat]

/-- The wire message for top light `i` with value `v`: `[0xB0, 104 + i, v]`. -/
def topWire (i : Nat) (v : Int) : List Nat := [0xB0, 104 + i, v.toNat]

/-- The flush of the specification: one message per address whose desired value
differs from the last-sent one (every address under `forceAll`), grid indices
0..63 first, then rows 0..7, then tops 0..7.  Grid index `i` is `y * 8 + x` with
`x = i % 8` and `y = i / 8`. -/
def expectedMessages (lp : Launchpad) (forceAll : Bool) : List (List Nat) :=
  ((List.finRange 64).filter fun i =>
      decide (lp.gridLightQueue i ≠ lp.gridCachedLightQueue i) || forceAll).map
    (fun i => gridWire (i.val % 8) (i.val / 8) (lp.gridLightQueue i))
  ++ ((List.finRange 8).filter fun i =>
      decide (lp.rowLightQueue i ≠ lp.rowCachedLightQueue i) || forceAll).map
    (fun i => rowWire i.val (lp.rowLightQueue i))
  ++ ((List.finRange 8).filter fun i =>
      decide (lp.topLightQueue i ≠ lp.topCachedLightQueue i) || forceAll).map
    (fun i => topWire i.val (lp.topLightQueue i))

/-- A state whose desired values are all 0 and whose last-sent values are 0
except for grid index 9, row 2 and top 5, which hold 3. -/
def staleLaunchpad : Launchpad :=
  { midiOut := []
    gridQueue := []
    topQueue := []
    rowQueue := []
    gridLightQueue := fun _ => 0
    gridCachedLightQueue := fun i => if i = 9 then 3 else 0
    topLightQueue := fun _ => 0
    topCachedLightQueue := fun i => if i = 5 then 3 else 0
    rowLightQueue := fun _ => 0
    rowCachedLightQueue := fun i => if i = 2 then 3 else 0 }

/-- The state right after construction when the storage of the cached arrays
happened to hold zeros. -/
def freshLaunchpad : Launchpad :=
  Launchpad.Launchpad 0 (fun _ => 0) (fun _ => 0) (fun _ => 0)

/-- A state in which every desired and every last-sent value is 0. -/
def darkLaunchpad : Launchpad :=
  { midiOut := []
    gridQueue := []
    topQueue := []
    rowQueue := []
    gridLightQueue := fun _ => 0
    gridCachedLightQueue := fun _ => 0
    topLightQueue := fun _ => 0
    topCachedLightQueue := fun _ => 0
    rowLightQueue := fun _ => 0
    rowCachedLightQueue := fun _ => 0 }

/-- The last-sent arrays and the sent messages of `lp'` are those of `lp`. -/
def SameSent (lp lp' : Launchpad) : Prop :=
  lp'.gridCachedLightQueue = lp.gridCachedLightQueue ∧
  lp'.rowCachedLightQueue = lp.rowCachedLightQueue ∧
  lp'.topCachedLightQueue = lp.topCachedLightQueue ∧
  lp'.midiOut = lp.midiOut

/-- The state right after construction when the storage of the cached arrays
happened to hold -1 (all bits set) in every word. -/
def unluckyLaunchpad : Launchpad :=
  Launchpad.Launchpad 0 (fun _ => -1) (fun _ => -1) (fun _ => -1)

/-- The handler called once per inbound message, in arrival order. -/
def handleAll (messages : List (List Nat)) (lp : Launchpad) : Option Launchpad :=
  messages.foldlM (fun lp message => launchpadEventHandler message lp) lp

/-- The grid event a 3-byte message decodes to, if it is of the grid kind:
status `0x90` and `data1 mod 10 ≠ 9`. -/
def decodeGridEvent (message : List Nat) : Option LaunchpadGridButtonState :=
  match message with
  | [d0, d1, d2] =>
    if d0 = 0x90 ∧ d1 % 10 ≠ 9 then
      some { x := ((d1 % 10 : Nat) : Int) - 1, y := 7 - Int.tdiv ((d1 : Int) - 11) 10,
             pressed := decide (d2 = 127) }
    else none
  | _ => none

/-- The row event a 3-byte message decodes to, if it is of the row kind: status
`0x90` and `data1 mod 10 = 9`. -/
def decodeRowEvent (message : List Nat) : Option LaunchpadRowButtonState :=
  match message with
  | [d0, d1, d2] =>
    if d0 = 0x90 ∧ d1 % 10 = 9 then
      some { rowIndex := Int.tdiv ((d1 : Int) - 19) 10, pressed := decide (d2 = 127) }
    else none
  | _ => none

/-- The top event a 3-byte message decodes to, if it is of the top kind: status
`0xB0`. -/
def decodeTopEvent (message : List Nat) : Option LaunchpadTopButtonState :=
  match message with
  | [d0, d1, d2] =>
    if d0 = 0xB0 then
      some { button := ⟨(d1 : Int) - 104⟩, pressed := decide (d2 = 127) }
    else none
  | _ => none

/-- The flush with every third byte written as the desired value reduced modulo
256: the messages of `expectedMessages`, without the assumption that the desired
values are intensities. -/
def narrowedMessages (lp : Launchpad) (forceAll : Bool) : List (List Nat) :=
  ((List.finRange 64).filter fun i =>
      decide (lp.gridLightQueue i ≠ lp.gridCachedLightQueue i) || forceAll).map
    (fun i => [0x90, i.val % 8 + (7 - i.val / 8) * 10 + 11, (lp.gridLightQueue i % 256).toNat])
  ++ ((List.finRange 8).filter fun i =>
      decide (lp.rowLightQueue i ≠ lp.rowCachedLightQueue i) || forceAll).map
    (fun i => [0x90, 19 + 10 * i.val, (lp.rowLightQueue i % 256).toNat])
  ++ ((List.finRange 8).filter fun i =>
      decide (lp.topLightQueue i ≠ lp.topCachedLightQueue i) || forceAll).map
    (fun i => [0xB0, 104 + i.val, (lp.topLightQueue i % 256).toNat])

theorem lightMessages_congr {n : Nat} (enc : Fin n → Int → List Nat) (updateAll : Bool)
    (desired cached cached' : Fin n → Int) (l : List (Fin n))
    (h : ∀ j ∈ l, cached' j = cached j) :
    lightMessages enc updateAll desired cached' l = lightMessages enc updateAll desired cached l := by
  unfold lightMessages
  apply List.filterMap_congr
  intro j hj
  rw [h j hj]

theorem syncedOn_nil {n : Nat} (desired cached : Fin n → Int) :
    syncedOn desired cached [] = cached := by
  funext j
  simp [syncedOn]

theorem syncedOn_cons_update {n : Nat} (desired cached : Fin n → Int) (i : Fin n)
    (l : List (Fin n)) :
    syncedOn desired (Function.update cached i (desired i)) l = syncedOn desired cached (i :: l) := by
  funext j
  unfold syncedOn
  by_cases hj : j ∈ l
  · simp [hj]
  · by_cases hji : j = i
    · subst hji
      simp [hj]
    · simp [hj, hji, Function.update_noteq hji]

theorem syncedOn_cons_same {n : Nat} (desired cached : Fin n → Int) (i : Fin n)
    (l : List (Fin n)) (h : cached i = desired i) :
    syncedOn desired cached l = syncedOn desired cached (i :: l) := by
  funext j
  unfold syncedOn
  by_cases hj : j ∈ l
  · simp [hj]
  · by_cases hji : j = i
    · subst hji
      simp [hj, h]
    · simp [hj, hji]

theorem foldl_updateGridLight (updateAll : Bool) (l : List (Fin 64)) (hl : l.Nodup)
    (lp : Launchpad) :
    l.foldl (Launchpad.updateGridLight updateAll) lp =
      { lp with
        midiOut := lp.midiOut ++
          lightMessages gridLightData updateAll lp.gridLightQueue lp.gridCachedLightQueue l
        gridCachedLightQueue := syncedOn lp.gridLightQueue lp.gridCachedLightQueue l } := by
  induction l generalizing lp with
  | nil =>
    cases lp
    simp [lightMessages, syncedOn_nil]
  | cons i l ih =>
    have hi : i ∉ l := (List.nodup_cons.mp hl).1
    rw [List.foldl_cons, ih (List.nodup_cons.mp hl).2]
    by_cases hc : lp.gridCachedLightQueue i ≠ lp.gridLightQueue i ∨ updateAll = true
    · have hstep : Launchpad.updateGridLight updateAll lp i =
          { lp with
            midiOut := lp.midiOut ++ [gridLightData i (lp.gridLightQueue i)]
            gridCachedLightQueue :=
              Function.update lp.gridCachedLightQueue i (lp.gridLightQueue i) } := by
        simp only [Launchpad.updateGridLight, if_pos hc, gridLightData]
      rw [hstep]
      simp only [syncedOn_cons_update]
      rw [lightMessages_congr gridLightData updateAll lp.gridLightQueue lp.gridCachedLightQueue
        (Function.update lp.gridCachedLightQueue i (lp.gridLightQueue i)) l
        (fun j hj => Function.update_noteq (by rintro rfl; exact hi hj) _ _)]
      simp [lightMessages, List.filterMap_cons, if_pos hc]
    · have hstep : Launchpad.updateGridLight updateAll lp i = lp := by
        simp only [Launchpad.updateGridLight, if_neg hc]
      have hsame : lp.gridCachedLightQueue i = lp.gridLightQueue i := by
        by_contra h
        exact hc (Or.inl h)
      rw [hstep, ← syncedOn_cons_same _ _ i l hsame]
      simp [lightMessages, List.filterMap_cons, if_neg hc]

theorem foldl_updateRowLight (updateAll : Bool) (l : List (Fin 8)) (hl : l.Nodup)
    (lp : Launchpad) :
    l.foldl (Launchpad.updateRowLight updateAll) lp =
      { lp with
        midiOut := lp.midiOut ++
          lightMessages rowLightData updateAll lp.rowLightQueue lp.rowCachedLightQueue l
        rowCachedLightQueue := syncedOn lp.rowLightQueue lp.rowCachedLightQueue l } := by
  induction l generalizing lp with
  | nil =>
    cases lp
    simp [lightMessages, syncedOn_nil]
  | cons i l ih =>
    have hi : i ∉ l := (List.nodup_cons.mp hl).1
    rw [List.foldl_cons, ih (List.nodup_cons.mp hl).2]
    by_cases hc : lp.rowCachedLightQueue i ≠ lp.rowLightQueue i ∨ updateAll = true
    · have hstep : Launchpad.updateRowLight updateAll lp i =
          { lp with
            midiOut := lp.midiOut ++ [rowLightData i (lp.rowLightQueue i)]
            rowCachedLightQueue :=
              Function.update lp.rowCachedLightQueue i (lp.rowLightQueue i) } := by
        simp only [Launchpad.updateRowLight, if_pos hc, rowLightData]
      rw [hstep]
      simp only [syncedOn_cons_update]
      rw [lightMessages_congr rowLightData updateAll lp.rowLightQueue lp.rowCachedLightQueue
        (Function.update lp.rowCachedLightQueue i (lp.rowLightQueue i)) l
        (fun j hj => Function.update_noteq (by rintro rfl; exact hi hj) _ _)]
      simp [lightMessages, List.filterMap_cons, if_pos hc]
    · have hstep : Launchpad.updateRowLight updateAll lp i = lp := by
        simp only [Launchpad.updateRowLight, if_neg hc]
      have hsame : lp.rowCachedLightQueue i = lp.rowLightQueue i := by
        by_contra h
        exact hc (Or.inl h)
      rw [hstep, ← syncedOn_cons_same _ _ i l hsame]
      simp [lightMessages, List.filterMap_cons, if_neg hc]

theorem foldl_updateTopLight (updateAll : Bool) (l : List (Fin 8)) (hl : l.Nodup)
    (lp : Launchpad) :
    l.foldl (Launchpad.updateTopLight updateAll) lp =
      { lp with
        midiOut := lp.midiOut ++
          lightMessages topLightData updateAll lp.topLightQueue lp.topCachedLightQueue l
        topCachedLightQueue := syncedOn lp.topLightQueue lp.topCachedLightQueue l } := by
  induction l generalizing lp with
  | nil =>
    cases lp
    simp [lightMessages, syncedOn_nil]
  | cons i l ih =>
    have hi : i ∉ l := (List.nodup_cons.mp hl).1
    rw [List.foldl_cons, ih (List.nodup_cons.mp hl).2]
    by_cases hc : lp.topCachedLightQueue i ≠ lp.topLightQueue i ∨ updateAll = true
    · have hstep : Launchpad.updateTopLight updateAll lp i =
          { lp with
            midiOut := lp.midiOut ++ [topLightData i (lp.topLightQueue i)]
            topCachedLightQueue :=
              Function.update lp.topCachedLightQueue i (lp.topLightQueue i) } := by
        simp only [Launchpad.updateTopLight, if_pos hc, topLightData]
      rw [hstep]
      simp only [syncedOn_cons_update]
      rw [lightMessages_congr topLightData updateAll lp.topLightQueue lp.topCachedLightQueue
        (Function.update lp.topCachedLightQueue i (lp.topLightQueue i)) l
        (fun j hj => Function.update_noteq (by rintro rfl; exact hi hj) _ _)]
      simp [lightMessages, List.filterMap_cons, if_pos hc]
    · have hstep : Launchpad.updateTopLight updateAll lp i = lp := by
        simp only [Launchpad.updateTopLight, if_neg hc]
      have hsame : lp.topCachedLightQueue i = lp.topLightQueue i := by
        by_contra h
        exact hc (Or.inl h)
      rw [hstep, ← syncedOn_cons_same _ _ i l hsame]
      simp [lightMessages, List.filterMap_cons, if_neg hc]

theorem syncedOn_finRange {n : Nat} (desired cached : Fin n → Int) :
    syncedOn desired cached (List.finRange n) = desired := by
  funext j
  simp [syncedOn, List.mem_finRange]

theorem updateLights_eq (lp : Launchpad) (updateAll : Bool) :
    lp.updateLights updateAll =
      { lp with
        midiOut := lp.midiOut ++ sentMessages lp updateAll
        gridCachedLightQueue := lp.gridLightQueue
        rowCachedLightQueue := lp.rowLightQueue
        topCachedLightQueue := lp.topLightQueue } := by
  unfold Launchpad.updateLights
  simp only [foldl_updateGridLight _ _ (List.nodup_finRange 64),
    foldl_updateRowLight _ _ (List.nodup_finRange 8),
    foldl_updateTopLight _ _ (List.nodup_finRange 8), syncedOn_finRange, sentMessages,
    List.append_assoc]

theorem lightMessages_synced {n : Nat} (enc : Fin n → Int → List Nat) (desired : Fin n → Int)
    (l : List (Fin n)) : lightMessages enc false desired desired l = [] := by
  simp [lightMessages]

theorem sentMessages_synced (lp : Launchpad)
    (hg : lp.gridCachedLightQueue = lp.gridLightQueue)
    (hr : lp.rowCachedLightQueue = lp.rowLightQueue)
    (ht : lp.topCachedLightQueue = lp.topLightQueue) : sentMessages lp false = [] := by
  simp [sentMessages, hg, hr, ht, lightMessages_synced]

/-! ## The setters and the reset loops -/

theorem storeAt_of_index {n : Nat} (a : Fin n → Int) (i : Int) (v : Int) (k : Fin n)
    (hk : i = (k.val : Int)) : storeAt a i v = some (Function.update a k v) := by
  have hb : 0 ≤ i ∧ i < (n : Int) := by
    have := k.isLt
    omega
  have hidx : (⟨i.toNat, by omega⟩ : Fin n) = k := by
    apply Fin.ext
    simp only
    omega
  simp only [storeAt, dif_pos hb, hidx]

theorem storeAt_out_of_bounds {n : Nat} (a : Fin n → Int) (i : Int) (v : Int)
    (h : ¬ (0 ≤ i ∧ i < (n : Int))) : storeAt a i v = none := by
  simp only [storeAt, dif_neg h]

theorem setGridLight_of_index (lp : Launchpad) (x y : Int) (color : Nat) (k : Fin 64)
    (hk : y * 8 + x = (k.val : Int)) :
    lp.setGridLight x y color =
      some { lp with
        gridLightQueue := Function.update lp.gridLightQueue k ((color % 256 : Nat) : Int) } := by
  simp only [Launchpad.setGridLight, storeAt_of_index _ _ _ k hk, Option.map_some']

theorem setRowLight_of_index (lp : Launchpad) (rowIndex : Int) (color : Int) (k : Fin 8)
    (hk : rowIndex = (k.val : Int)) :
    lp.setRowLight rowIndex color =
      some { lp with rowLightQueue := Function.update lp.rowLightQueue k color } := by
  simp only [Launchpad.setRowLight, storeAt_of_index _ _ _ k hk, Option.map_some']

theorem setTopLight_of_index (lp : Launchpad) (btn : LaunchpadTopButton) (color : Int) (k : Fin 8)
    (hk : btn.ord = (k.val : Int)) :
    lp.setTopLight btn color =
      some { lp with topLightQueue := Function.update lp.topLightQueue k color } := by
  simp only [Launchpad.setTopLight, storeAt_of_index _ _ _ k hk, Option.map_some']

theorem foldlM_setRowLight (l : List Nat) (hl : ∀ k ∈ l, k < 8) (lp : Launchpad) :
    l.foldlM (fun lp (i : Nat) => lp.setRowLight (i : Int) 0) lp =
      some { lp with
        rowLightQueue := fun j => if j.val ∈ l then 0 else lp.rowLightQueue j } := by
  induction l generalizing lp with
  | nil =>
    cases lp
    simp
  | cons i l ih =>
    have hi : i < 8 := hl i (List.mem_cons_self i l)
    rw [List.foldlM_cons, setRowLight_of_index lp (i : Int) 0 ⟨i, hi⟩ rfl]
    simp only [Option.bind_eq_bind, Option.some_bind]
    rw [ih (fun k hk => hl k (List.mem_cons_of_mem i hk))]
    congr 2
    funext j
    by_cases hji : j = ⟨i, hi⟩
    · subst hji
      simp
    · have hne : j.val ≠ i := fun h => hji (Fin.ext h)
      simp [Function.update_noteq hji, hne]

theorem foldlM_setTopLight (l : List Nat) (hl : ∀ k ∈ l, k < 8) (lp : Launchpad) :
    l.foldlM (fun lp (i : Nat) => lp.setTopLight ⟨(i : Int)⟩ 0) lp =
      some { lp with
        topLightQueue := fun j => if j.val ∈ l then 0 else lp.topLightQueue j } := by
  induction l generalizing lp with
  | nil =>
    cases lp
    simp
  | cons i l ih =>
    have hi : i < 8 := hl i (List.mem_cons_self i l)
    rw [List.foldlM_cons, setTopLight_of_index lp ⟨(i : Int)⟩ 0 ⟨i, hi⟩ rfl]
    simp only [Option.bind_eq_bind, Option.some_bind]
    rw [ih (fun k hk => hl k (List.mem_cons_of_mem i hk))]
    congr 2
    funext j
    by_cases hji : j = ⟨i, hi⟩
    · subst hji
      simp
    · have hne : j.val ≠ i := fun h => hji (Fin.ext h)
      simp [Function.update_noteq hji, hne]

theorem foldlM_setGridLight (y : Nat) (hy : y < 8) (l : List Nat) (hl : ∀ k ∈ l, k < 8)
    (lp : Launchpad) :
    l.foldlM (fun lp (x : Nat) => lp.setGridLight (x : Int) (y : Int) 0) lp =
      some { lp with
        gridLightQueue := fun j =>
          if j.val / 8 = y ∧ j.val % 8 ∈ l then 0 else lp.gridLightQueue j } := by
  induction l generalizing lp with
  | nil =>
    cases lp
    simp
  | cons x l ih =>
    have hx : x < 8 := hl x (List.mem_cons_self x l)
    rw [List.foldlM_cons,
      setGridLight_of_index lp (x : Int) (y : Int) 0 ⟨y * 8 + x, by omega⟩ (by push_cast; ring)]
    simp only [Option.bind_eq_bind, Option.some_bind]
    rw [ih (fun k hk => hl k (List.mem_cons_of_mem x hk))]
    congr 2
    funext j
    by_cases hji : j = ⟨y * 8 + x, by omega⟩
    · subst hji
      have h1 : (y * 8 + x) / 8 = y := by omega
      have h2 : (y * 8 + x) % 8 = x := by omega
      simp [h1, h2]
    · have hne : ¬ (j.val / 8 = y ∧ j.val % 8 = x) := by
        rintro ⟨h1, h2⟩
        exact hji (Fin.ext (by simp only; omega))
      by_cases hy' : j.val / 8 = y
      · have hx' : j.val % 8 ≠ x := fun h => hne ⟨hy', h⟩
        simp [Function.update_noteq hji, hy', hx']
      · simp [Function.update_noteq hji, hy']

theorem foldlM_resetGridRows (ly : List Nat) (hl : ∀ k ∈ ly, k < 8) (lp : Launchpad) :
    ly.foldlM
        (fun lp (y : Nat) =>
          (List.range 8).foldlM (fun lp (x : Nat) => lp.setGridLight (x : Int) (y : Int) 0) lp) lp =
      some { lp with
        gridLightQueue := fun j => if j.val / 8 ∈ ly then 0 else lp.gridLightQueue j } := by
  induction ly generalizing lp with
  | nil =>
    cases lp
    simp
  | cons y ly ih =>
    have hy : y < 8 := hl y (List.mem_cons_self y ly)
    rw [List.foldlM_cons, foldlM_setGridLight y hy (List.range 8) (fun k hk => List.mem_range.mp hk)]
    simp only [Option.bind_eq_bind, Option.some_bind]
    rw [ih (fun k hk => hl k (List.mem_cons_of_mem y hk))]
    congr 2
    funext j
    have hj : j.val % 8 < 8 := Nat.mod_lt _ (by decide)
    by_cases hy' : j.val / 8 = y
    · simp [hy', List.mem_range, hj]
    · simp [hy', List.mem_range, hj]

theorem resetGridLights_eq (lp : Launchpad) :
    lp.resetGridLights = some { lp with gridLightQueue := fun _ => 0 } := by
  unfold Launchpad.resetGridLights
  rw [foldlM_resetGridRows (List.range 8) (fun k hk => List.mem_range.mp hk)]
  congr 2
  funext j
  have hj : j.val / 8 < 8 := by
    have := j.isLt
    omega
  simp [List.mem_range, hj]

theorem resetTopLights_eq (lp : Launchpad) :
    lp.resetTopLights = some { lp with rowLightQueue := fun _ => 0 } := by
  unfold Launchpad.resetTopLights
  rw [foldlM_setRowLight (List.range 8) (fun k hk => List.mem_range.mp hk)]
  congr 2
  funext j
  simp [List.mem_range, j.isLt]

theorem resetRowLights_eq (lp : Launchpad) :
    lp.resetRowLights = some { lp with topLightQueue := fun _ => 0 } := by
  unfold Launchpad.resetRowLights
  rw [foldlM_setTopLight (List.range 8) (fun k hk => List.mem_range.mp hk)]
  congr 2
  funext j
  simp [List.mem_range, j.isLt]

/-! ## Shapes of the sent messages -/

theorem lightMessages_updateAll {n : Nat} (enc : Fin n → Int → List Nat)
    (desired cached : Fin n → Int) (l : List (Fin n)) :
    lightMessages enc true desired cached l = l.map fun i => enc i (desired i) := by
  induction l with
  | nil => rfl
  | cons i l ih =>
    simp only [lightMessages, List.filterMap_cons, or_true, if_true, List.map_cons] at ih ⊢
    rw [ih]

theorem lightMessages_eq_map_filter {n : Nat} (enc : Fin n → Int → List Nat) (updateAll : Bool)
    (desired cached : Fin n → Int) (l : List (Fin n)) :
    lightMessages enc updateAll desired cached l =
      (l.filter fun i => decide (desired i ≠ cached i) || updateAll).map
        fun i => enc i (desired i) := by
  induction l with
  | nil => rfl
  | cons i l ih =>
    unfold lightMessages at ih ⊢
    by_cases hc : cached i ≠ desired i ∨ updateAll = true
    · have hf : (decide (desired i ≠ cached i) || updateAll) = true := by
        rcases hc with h | h
        · have h' : desired i ≠ cached i := fun e => h e.symm
          simp [h']
        · simp [h]
      simp only [List.filterMap_cons, if_pos hc, List.filter_cons, hf, if_true, List.map_cons, ih]
    · have hf : (decide (desired i ≠ cached i) || updateAll) = false := by
        have h1 : cached i = desired i := by
          by_contra h
          exact hc (Or.inl h)
        have h2 : updateAll = false := by
          cases updateAll
          · rfl
          · exact absurd (Or.inr rfl) hc
        simp [h1, h2]
      simp only [List.filterMap_cons, if_neg hc, List.filter_cons, hf, ih]
      rfl

theorem lightMessages_cons {n : Nat} (enc : Fin n → Int → List Nat) (updateAll : Bool)
    (desired cached : Fin n → Int) (i : Fin n) (l : List (Fin n)) :
    lightMessages enc updateAll desired cached (i :: l) =
      (if cached i ≠ desired i ∨ updateAll = true then [enc i (desired i)] else []) ++
        lightMessages enc updateAll desired cached l := by
  unfold lightMessages
  rw [List.filterMap_cons]
  by_cases h : cached i ≠ desired i ∨ updateAll = true
  · simp only [if_pos h, List.singleton_append]
  · simp only [if_neg h, List.nil_append]

theorem lightMessages_update {n : Nat} (enc : Fin n → Int → List Nat) (desired : Fin n → Int)
    (k : Fin n) (v : Int) (l : List (Fin n)) (hl : l.Nodup) :
    lightMessages enc false (Function.update desired k v) desired l =
      if k ∈ l ∧ desired k ≠ v then [enc k v] else [] := by
  induction l with
  | nil => simp [lightMessages]
  | cons i l ih =>
    have hi : i ∉ l := (List.nodup_cons.mp hl).1
    rw [lightMessages_cons, ih (List.nodup_cons.mp hl).2]
    by_cases hik : i = k
    · subst hik
      by_cases hv : desired i = v
      · simp [hi, hv]
      · simp [hi, hv]
    · have hki : ¬ k = i := fun h => hik h.symm
      simp [Function.update_noteq hik, hki]

theorem toUChar_of_byte (v : Int) (h0 : 0 ≤ v) (h1 : v ≤ 255) : toUChar v = v.toNat := by
  unfold toUChar
  rw [Int.emod_eq_of_lt h0 (by omega)]

theorem gridLightData_of_coords (x y : Nat) (hx : x ≤ 7) (hy : y ≤ 7) (v : Int) :
    gridLightData ⟨y * 8 + x, by omega⟩ v = [144, x + (7 - y) * 10 + 11, toUChar v] := by
  have h1 : (y * 8 + x) % 8 = x := by omega
  have h2 : (y * 8 + x) / 8 = y := by omega
  have h3 : (x + (7 - y) * 10 + 11) % 256 = x + (7 - y) * 10 + 11 := by omega
  simp only [gridLightData, h1, h2, h3]

theorem finRange_nth (n k : Nat) (h : k < n) : (List.finRange n)[k]? = some ⟨k, h⟩ := by
  rw [List.getElem?_eq_getElem (by simp [h])]
  simp [List.getElem_finRange]

/-- Under `updateLights(true)` the message for grid index `k` is the `k`-th one sent. -/
theorem updateLights_true_nth (lp : Launchpad) (k : Nat) (hk : k < 64) :
    (lp.updateLights true).midiOut[lp.midiOut.length + k]? =
      some (gridLightData ⟨k, hk⟩ (lp.gridLightQueue ⟨k, hk⟩)) := by
  rw [updateLights_eq]
  simp only [sentMessages, lightMessages_updateAll]
  rw [List.getElem?_append_right (by omega)]
  have hlen : lp.midiOut.length + k - lp.midiOut.length = k := by omega
  rw [hlen, List.append_assoc, List.getElem?_append_left (by simp [hk])]
  rw [List.getElem?_map, finRange_nth 64 k hk]
  rfl

/-- What the handler does with a message the grid loop sends for `(x, y)`. -/
theorem handler_gridWire (lp : Launchpad) (x y d2 : Nat) (hx : x ≤ 7) (hy : y ≤ 7) :
    launchpadEventHandler [144, x + (7 - y) * 10 + 11, d2] lp =
      some { lp with
        gridQueue := lp.gridQueue ++ [{ x := (x : Int), y := (y : Int), pressed := decide (d2 = 127) }] } := by
  have hrow : ¬ (x + (7 - y) * 10 + 11) % 10 = 9 := by omega
  have hx' : (((x + (7 - y) * 10 + 11) % 10 : Nat) : Int) - 1 = (x : Int) := by omega
  have hy' : 7 - Int.tdiv (((x + (7 - y) * 10 + 11 : Nat) : Int) - 11) 10 = (y : Int) := by
    rw [Int.tdiv_eq_ediv (by omega) (by decide)]
    omega
  simp only [launchpadEventHandler, List.getElem?_cons_zero, List.getElem?_cons_succ, if_true,
    hrow, if_false, hx', hy']

/-! ## Flushing: `updateLights` -/

/-- C1. Round trip: for `0 ≤ x, y ≤ 7` and `0 ≤ v ≤ 127`, when grid index
`y * 8 + x` holds `v`, the message `updateLights` sends for that index is
`[0x90, x + (7 - y) * 10 + 11, v]`: it is the one at position `y * 8 + x` of what
`updateLights(true)` sends, and under either flag it is what the loop pass for
that index appends whenever that pass sends.  `launchpadEventHandler`, fed that
message in any state, appends to the grid queue (not to the row queue) one event
with coordinates exactly `(x, y)`. -/
theorem grid_light_round_trip (lp lp' : Launchpad) (x y : Nat) (v : Int)
    (hx : x ≤ 7) (hy : y ≤ 7) (hv0 : 0 ≤ v) (hv : v ≤ 127)
    (hd : lp.gridLightQueue ⟨y * 8 + x, by omega⟩ = v) :
    ∃ m, m = [0x90, x + (7 - y) * 10 + 11, v.toNat] ∧
      (lp.updateLights true).midiOut[lp.midiOut.length + (y * 8 + x)]? = some m ∧
      (∀ updateAll : Bool,
        lp.gridCachedLightQueue ⟨y * 8 + x, by omega⟩ ≠ v ∨ updateAll = true →
        (Launchpad.updateGridLight updateAll lp ⟨y * 8 + x, by omega⟩).midiOut =
          lp.midiOut ++ [m]) ∧
      launchpadEventHandler m lp' =
        some { lp' with
          gridQueue := lp'.gridQueue ++
            [{ x := (x : Int), y := (y : Int), pressed := decide (v = 127) }] } := by
  have hp : decide (v.toNat = 127) = decide (v = 127) := by
    congr 1
    apply propext
    omega
  have hdata : gridLightData ⟨y * 8 + x, by omega⟩ v =
      [0x90, x + (7 - y) * 10 + 11, v.toNat] := by
    rw [gridLightData_of_coords x y hx hy, toUChar_of_byte v hv0 (by omega)]
  refine ⟨[0x90, x + (7 - y) * 10 + 11, v.toNat], rfl, ?_, ?_, ?_⟩
  · rw [updateLights_true_nth lp (y * 8 + x) (by omega), hd, hdata]
  · intro updateAll hc
    rw [← hd] at hc
    have hstep : (Launchpad.updateGridLight updateAll lp ⟨y * 8 + x, by omega⟩).midiOut =
        lp.midiOut ++
          [gridLightData ⟨y * 8 + x, by omega⟩ (lp.gridLightQueue ⟨y * 8 + x, by omega⟩)] := by
      simp only [Launchpad.updateGridLight, if_pos hc, gridLightData]
    rw [hstep, hd, hdata]
  · rw [handler_gridWire lp' x y v.toNat hx hy, hp]

/-- Witness for C1 at `(x, y) = (2, 5)` with value 0. -/
theorem grid_light_round_trip_witness :
    ∃ m, m = [0x90, 2 + (7 - 5) * 10 + 11, (0 : Int).toNat] ∧
      (staleLaunchpad.updateLights true).midiOut[staleLaunchpad.midiOut.length + (5 * 8 + 2)]?
        = some m ∧
      (∀ updateAll : Bool,
        staleLaunchpad.gridCachedLightQueue ⟨5 * 8 + 2, by decide⟩ ≠ 0 ∨ updateAll = true →
        (Launchpad.updateGridLight updateAll staleLaunchpad ⟨5 * 8 + 2, by decide⟩).midiOut =
          staleLaunchpad.midiOut ++ [m]) ∧
      launchpadEventHandler m freshLaunchpad =
        some { freshLaunchpad with
          gridQueue := freshLaunchpad.gridQueue ++
            [{ x := ((2 : Nat) : Int), y := ((5 : Nat) : Int), pressed := decide ((0 : Int) = 127) }] } :=
  grid_light_round_trip staleLaunchpad freshLaunchpad 2 5 0 (by decide) (by decide) (by decide)
    (by decide) rfl

/-- C2. When every desired value lies in `[0, 127]`, `updateLights(forceAll)`
appends to the sent messages exactly the flush of the specification: one
message per address whose desired value differs from its last-sent value (every
address under `forceAll`), grid indices 0..63, then rows 0..7, then tops 0..7,
encoded `[0x90, x + (7 - y) * 10 + 11, v]`, `[0x90, 19 + 10 * i, v]` and
`[0xB0, 104 + i, v]`. -/
theorem updateLights_sends_expected (lp : Launchpad) (forceAll : Bool)
    (hg : ∀ i, 0 ≤ lp.gridLightQueue i ∧ lp.gridLightQueue i ≤ 127)
    (hr : ∀ i, 0 ≤ lp.rowLightQueue i ∧ lp.rowLightQueue i ≤ 127)
    (ht : ∀ i, 0 ≤ lp.topLightQueue i ∧ lp.topLightQueue i ≤ 127) :
    (lp.updateLights forceAll).midiOut = lp.midiOut ++ expectedMessages lp forceAll := by
  rw [updateLights_eq]
  simp only [sentMessages, expectedMessages, lightMessages_eq_map_filter]
  have e1 : ∀ i : Fin 64, gridLightData i (lp.gridLightQueue i) =
      gridWire (i.val % 8) (i.val / 8) (lp.gridLightQueue i) := by
    intro i
    have h3 : (i.val % 8 + (7 - i.val / 8) * 10 + 11) % 256 =
        i.val % 8 + (7 - i.val / 8) * 10 + 11 := by omega
    simp only [gridLightData, gridWire, h3,
      toUChar_of_byte _ (hg i).1 (by have := (hg i).2; omega)]
  have e2 : ∀ i : Fin 8, rowLightData i (lp.rowLightQueue i) =
      rowWire i.val (lp.rowLightQueue i) := by
    intro i
    have h3 : (19 + 10 * i.val) % 256 = 19 + 10 * i.val := by omega
    simp only [rowLightData, rowWire, h3,
      toUChar_of_byte _ (hr i).1 (by have := (hr i).2; omega)]
  have e3 : ∀ i : Fin 8, topLightData i (lp.topLightQueue i) =
      topWire i.val (lp.topLightQueue i) := by
    intro i
    have h3 : (104 + i.val) % 256 = 104 + i.val := by omega
    simp only [topLightData, topWire, h3,
      toUChar_of_byte _ (ht i).1 (by have := (ht i).2; omega)]
  simp only [e1, e2, e3]

/-- Witness for C2: a state with all desired values 0 and three stale entries. -/
theorem updateLights_sends_expected_witness :
    (staleLaunchpad.updateLights false).midiOut =
      staleLaunchpad.midiOut ++ expectedMessages staleLaunchpad false :=
  updateLights_sends_expected staleLaunchpad false
    (fun _ => ⟨Int.le_refl 0, by show (0 : Int) ≤ 127; decide⟩)
    (fun _ => ⟨Int.le_refl 0, by show (0 : Int) ≤ 127; decide⟩)
    (fun _ => ⟨Int.le_refl 0, by show (0 : Int) ≤ 127; decide⟩)

/-- C3. After `updateLights(forceAll)`, from any state and for either flag,
every last-sent entry of the three arrays equals the corresponding desired
entry, and the desired arrays and the three event queues are as before. -/
theorem updateLights_syncs_cache (lp : Launchpad) (forceAll : Bool) :
    (∀ i, (lp.updateLights forceAll).gridCachedLightQueue i =
        (lp.updateLights forceAll).gridLightQueue i) ∧
    (∀ i, (lp.updateLights forceAll).rowCachedLightQueue i =
        (lp.updateLights forceAll).rowLightQueue i) ∧
    (∀ i, (lp.updateLights forceAll).topCachedLightQueue i =
        (lp.updateLights forceAll).topLightQueue i) ∧
    (lp.updateLights forceAll).gridLightQueue = lp.gridLightQueue ∧
    (lp.updateLights forceAll).rowLightQueue = lp.rowLightQueue ∧
    (lp.updateLights forceAll).topLightQueue = lp.topLightQueue ∧
    (lp.updateLights forceAll).gridQueue = lp.gridQueue ∧
    (lp.updateLights forceAll).rowQueue = lp.rowQueue ∧
    (lp.updateLights forceAll).topQueue = lp.topQueue := by
  rw [updateLights_eq]
  exact ⟨fun _ => rfl, fun _ => rfl, fun _ => rfl, rfl, rfl, rfl, rfl, rfl, rfl⟩

/-- C4. Idempotence: from any state, a second `updateLights(false)` right after
a first one sends nothing: the list of sent messages is the same after the
second call as after the first. -/
theorem updateLights_twice_sends_nothing (lp : Launchpad) :
    ((lp.updateLights false).updateLights false).midiOut = (lp.updateLights false).midiOut := by
  rw [updateLights_eq (lp.updateLights false) false]
  have h : sentMessages (lp.updateLights false) false = [] := by
    apply sentMessages_synced <;> rw [updateLights_eq]
  simp only [h, List.append_nil]

/-- What `updateLights(false)` sends after a full flush followed by one
`setGridLight` at grid index `k`. -/
theorem sentMessages_after_setGridLight (lp : Launchpad) (k : Fin 64) (v : Int) :
    sentMessages
        { lp.updateLights true with
          gridLightQueue := Function.update (lp.updateLights true).gridLightQueue k v } false =
      if lp.gridLightQueue k = v then [] else [gridLightData k v] := by
  rw [updateLights_eq]
  simp only [sentMessages, lightMessages_synced, List.append_nil]
  rw [lightMessages_update gridLightData lp.gridLightQueue k v _ (List.nodup_finRange 64)]
  by_cases h : lp.gridLightQueue k = v
  · simp [h]
  · simp [h, List.mem_finRange]

/-- After a full flush, one in-range `setGridLight` and an `updateLights(false)`:
the call succeeds and the flush sends the message for `(x, y)` exactly when the
value is new. -/
theorem flush_after_single_set (lp : Launchpad) (x y v : Nat)
    (hx : x ≤ 7) (hy : y ≤ 7) (hv : v ≤ 255) :
    ∃ lp1, (lp.updateLights true).setGridLight (x : Int) (y : Int) v = some lp1 ∧
      (lp1.updateLights false).midiOut =
        (lp.updateLights true).midiOut ++
          (if lp.gridLightQueue ⟨y * 8 + x, by omega⟩ = (v : Int) then []
            else [[0x90, x + (7 - y) * 10 + 11, v]]) := by
  have hv' : v % 256 = v := by omega
  have hset := setGridLight_of_index (lp.updateLights true) (x : Int) (y : Int) v
    ⟨y * 8 + x, by omega⟩ (by push_cast; ring)
  rw [hv'] at hset
  refine ⟨_, hset, ?_⟩
  rw [updateLights_eq _ false, sentMessages_after_setGridLight lp ⟨y * 8 + x, by omega⟩ (v : Int),
    gridLightData_of_coords x y hx hy, toUChar_of_byte (v : Int) (by omega) (by omega)]
  simp

/-- C5, as stated, fails: in the all-zero state, after `updateLights(true)`, the
call `setGridLight(0, 0, 0)` succeeds and the following `updateLights(false)`
sends nothing, so not the single message `[0x90, 0 + (7 - 0) * 10 + 11, 0]`. -/
theorem single_set_may_send_nothing :
    ∃ lp1, (darkLaunchpad.updateLights true).setGridLight 0 0 0 = some lp1 ∧
      (lp1.updateLights false).midiOut = (darkLaunchpad.updateLights true).midiOut ∧
      (lp1.updateLights false).midiOut ≠
        (darkLaunchpad.updateLights true).midiOut ++ [[0x90, 0 + (7 - 0) * 10 + 11, 0]] := by
  obtain ⟨lp1, hset, hout⟩ := flush_after_single_set darkLaunchpad 0 0 0 (by decide) (by decide)
    (by decide)
  have hdark : darkLaunchpad.gridLightQueue ⟨0 * 8 + 0, by decide⟩ = ((0 : Nat) : Int) := rfl
  rw [if_pos hdark, List.append_nil] at hout
  refine ⟨lp1, hset, hout, ?_⟩
  rw [hout]
  intro h
  have hlen := congrArg List.length h
  simp at hlen

/-- C5, amended. From any state, after `updateLights(true)`, a call
`setGridLight(x, y, v)` with `0 ≤ x, y ≤ 7` and `v` an `unsigned char` succeeds,
and the following `updateLights(false)` sends exactly the one message
`[0x90, x + (7 - y) * 10 + 11, v]` when `v` differs from the desired value
`(x, y)` held before, and no message when `v` equals it. -/
theorem single_set_sends_at_most_one (lp : Launchpad) (x y v : Nat)
    (hx : x ≤ 7) (hy : y ≤ 7) (hv : v ≤ 255) :
    ∃ lp1, (lp.updateLights true).setGridLight (x : Int) (y : Int) v = some lp1 ∧
      (lp1.updateLights false).midiOut =
        (lp.updateLights true).midiOut ++
          (if lp.gridLightQueue ⟨y * 8 + x, by omega⟩ = (v : Int) then []
            else [[0x90, x + (7 - y) * 10 + 11, v]]) :=
  flush_after_single_set lp x y v hx hy hv

/-- Witness for the amended C5 at `(x, y) = (1, 1)`, value 3. -/
theorem single_set_sends_at_most_one_witness :
    ∃ lp1, (darkLaunchpad.updateLights true).setGridLight ((1 : Nat) : Int) ((1 : Nat) : Int) 3
        = some lp1 ∧
      (lp1.updateLights false).midiOut =
        (darkLaunchpad.updateLights true).midiOut ++
          (if darkLaunchpad.gridLightQueue ⟨1 * 8 + 1, by decide⟩ = ((3 : Nat) : Int) then []
            else [[0x90, 1 + (7 - 1) * 10 + 11, 3]]) :=
  single_set_sends_at_most_one darkLaunchpad 1 1 3 (by decide) (by decide) (by decide)

/-! ## The setters and resets -/

/-- C6, as stated, fails: on the freshly constructed state `setGridLight(8, 0, 0)`
returns normally (the code has no error to report) and the desired grid entry at
index 8, which held -1, now holds 0. -/
theorem setGridLight_x_eight_writes :
    ∃ lp', freshLaunchpad.setGridLight 8 0 0 = some lp' ∧
      lp'.gridLightQueue ⟨8, by decide⟩ = 0 ∧
      freshLaunchpad.gridLightQueue ⟨8, by decide⟩ = -1 := by
  refine ⟨_, setGridLight_of_index freshLaunchpad 8 0 0 ⟨8, by decide⟩ (by decide), ?_, rfl⟩
  simp

/-- C6, amended. `setGridLight` checks no range: whenever the folded index
`y * 8 + x` lies in `0 .. 63`, whatever `x` and `y` are, the call returns
normally, stores the value (as `unsigned char`) in the desired grid entry at that
index and changes nothing else: no other desired entry, no last-sent entry, no
event queue, no sent message. -/
theorem setGridLight_unchecked (lp : Launchpad) (x y : Int) (v : Nat)
    (h0 : 0 ≤ y * 8 + x) (h1 : y * 8 + x ≤ 63) :
    lp.setGridLight x y v =
      some { lp with
        gridLightQueue :=
          Function.update lp.gridLightQueue ⟨(y * 8 + x).toNat, by omega⟩ ((v % 256 : Nat) : Int) } :=
  setGridLight_of_index lp x y v ⟨(y * 8 + x).toNat, by omega⟩ (by simp only; omega)

/-- Witness for the amended C6 at `setGridLight(8, 0, 0)`. -/
theorem setGridLight_unchecked_witness :
    freshLaunchpad.setGridLight 8 0 0 =
      some { freshLaunchpad with
        gridLightQueue :=
          Function.update freshLaunchpad.gridLightQueue ⟨((0 : Int) * 8 + 8).toNat, by decide⟩
            ((0 % 256 : Nat) : Int) } :=
  setGridLight_unchecked freshLaunchpad 8 0 0 (by decide) (by decide)

/-- C7. For `0 ≤ x, y ≤ 7` and every `unsigned char` value `v`, `setGridLight(x, y, v)`
returns normally; afterwards the desired grid entry at `y * 8 + x` is `v`, every
other desired grid entry, the desired row and top arrays and the three event
queues are as before; and distinct in-range pairs fold to distinct indices. -/
theorem setGridLight_sets_one_entry (lp : Launchpad) (x y v : Nat)
    (hx : x ≤ 7) (hy : y ≤ 7) (hv : v ≤ 255) :
    (∃ lp', lp.setGridLight (x : Int) (y : Int) v = some lp' ∧
      lp'.gridLightQueue ⟨y * 8 + x, by omega⟩ = (v : Int) ∧
      (∀ j : Fin 64, j.val ≠ y * 8 + x → lp'.gridLightQueue j = lp.gridLightQueue j) ∧
      lp'.rowLightQueue = lp.rowLightQueue ∧
      lp'.topLightQueue = lp.topLightQueue ∧
      lp'.gridQueue = lp.gridQueue ∧
      lp'.rowQueue = lp.rowQueue ∧
      lp'.topQueue = lp.topQueue) ∧
    (∀ x' y' : Nat, x' ≤ 7 → y' ≤ 7 → (x', y') ≠ (x, y) → y' * 8 + x' ≠ y * 8 + x) := by
  have hv' : v % 256 = v := by omega
  constructor
  · refine ⟨_, setGridLight_of_index lp (x : Int) (y : Int) v ⟨y * 8 + x, by omega⟩
      (by push_cast; ring), ?_, ?_, rfl, rfl, rfl, rfl, rfl⟩
    · simp [hv']
    · intro j hj
      have hne : j ≠ ⟨y * 8 + x, by omega⟩ := fun h => hj (congrArg Fin.val h)
      simp [Function.update_noteq hne]
  · intro x' y' hx' hy' hne heq
    apply hne
    have h1 : x' = x := by omega
    have h2 : y' = y := by omega
    rw [h1, h2]

/-- Witness for C7 at `setGridLight(3, 4, 5)` on the freshly constructed state. -/
theorem setGridLight_sets_one_entry_witness :
    (∃ lp', freshLaunchpad.setGridLight ((3 : Nat) : Int) ((4 : Nat) : Int) 5 = some lp' ∧
      lp'.gridLightQueue ⟨4 * 8 + 3, by decide⟩ = ((5 : Nat) : Int) ∧
      (∀ j : Fin 64, j.val ≠ 4 * 8 + 3 → lp'.gridLightQueue j = freshLaunchpad.gridLightQueue j) ∧
      lp'.rowLightQueue = freshLaunchpad.rowLightQueue ∧
      lp'.topLightQueue = freshLaunchpad.topLightQueue ∧
      lp'.gridQueue = freshLaunchpad.gridQueue ∧
      lp'.rowQueue = freshLaunchpad.rowQueue ∧
      lp'.topQueue = freshLaunchpad.topQueue) ∧
    (∀ x' y' : Nat, x' ≤ 7 → y' ≤ 7 → (x', y') ≠ (3, 4) → y' * 8 + x' ≠ 4 * 8 + 3) :=
  setGridLight_sets_one_entry freshLaunchpad 3 4 5 (by decide) (by decide) (by decide)

theorem handler_sameSent (message : List Nat) (lp lp' : Launchpad)
    (h : launchpadEventHandler message lp = some lp') : SameSent lp lp' := by
  unfold launchpadEventHandler at h
  simp only at h
  split at h
  · exact absurd h (by simp)
  · split at h
    · split at h
      · exact absurd h (by simp)
      · split at h
        · split at h
          · exact absurd h (by simp)
          · cases h
            exact ⟨rfl, rfl, rfl, rfl⟩
        · split at h
          · exact absurd h (by simp)
          · cases h
            exact ⟨rfl, rfl, rfl, rfl⟩
    · split at h
      · split at h
        · exact absurd h (by simp)
        · split at h
          · exact absurd h (by simp)
          · cases h
            exact ⟨rfl, rfl, rfl, rfl⟩
      · cases h
        exact ⟨rfl, rfl, rfl, rfl⟩

/-- C8. With in-range arguments each of `setGridLight`, `setRowLight`,
`setTopLight` returns normally, as do `resetGridLights`, `resetRowLights` and
`resetTopLights`, and none of them changes an entry of the three last-sent arrays
or sends a message; neither does `launchpadEventHandler`.  `updateLights` is the
only operation left that writes the last-sent arrays. -/
theorem only_updateLights_touches_last_sent (lp : Launchpad) (x y v i : Nat) (c : Int)
    (b : LaunchpadTopButton)
    (hx : x ≤ 7) (hy : y ≤ 7) (hi : i ≤ 7) (hb0 : 0 ≤ b.ord) (hb1 : b.ord ≤ 7) :
    (∃ lp', lp.setGridLight (x : Int) (y : Int) v = some lp' ∧ SameSent lp lp') ∧
    (∃ lp', lp.setRowLight (i : Int) c = some lp' ∧ SameSent lp lp') ∧
    (∃ lp', lp.setTopLight b c = some lp' ∧ SameSent lp lp') ∧
    (∃ lp', lp.resetGridLights = some lp' ∧ SameSent lp lp') ∧
    (∃ lp', lp.resetRowLights = some lp' ∧ SameSent lp lp') ∧
    (∃ lp', lp.resetTopLights = some lp' ∧ SameSent lp lp') ∧
    (∀ message lp', launchpadEventHandler message lp = some lp' → SameSent lp lp') :=
  ⟨⟨_, setGridLight_of_index lp (x : Int) (y : Int) v ⟨y * 8 + x, by omega⟩ (by push_cast; ring),
      rfl, rfl, rfl, rfl⟩,
    ⟨_, setRowLight_of_index lp (i : Int) c ⟨i, by omega⟩ rfl, rfl, rfl, rfl, rfl⟩,
    ⟨_, setTopLight_of_index lp b c ⟨b.ord.toNat, by omega⟩ (by simp only; omega),
      rfl, rfl, rfl, rfl⟩,
    ⟨_, resetGridLights_eq lp, rfl, rfl, rfl, rfl⟩,
    ⟨_, resetRowLights_eq lp, rfl, rfl, rfl, rfl⟩,
    ⟨_, resetTopLights_eq lp, rfl, rfl, rfl, rfl⟩,
    fun message lp' h => handler_sameSent message lp lp' h⟩

/-- Witness for C8 on a state with stale last-sent entries: `setGridLight(3, 4, 5)`,
`setRowLight(2, 9)`, `setTopLight(MIXER, 9)` and the three resets. -/
theorem only_updateLights_touches_last_sent_witness :
    (∃ lp', staleLaunchpad.setGridLight ((3 : Nat) : Int) ((4 : Nat) : Int) 5 = some lp' ∧
      SameSent staleLaunchpad lp') ∧
    (∃ lp', staleLaunchpad.setRowLight ((2 : Nat) : Int) 9 = some lp' ∧
      SameSent staleLaunchpad lp') ∧
    (∃ lp', staleLaunchpad.setTopLight LaunchpadTopButton.MIXER 9 = some lp' ∧
      SameSent staleLaunchpad lp') ∧
    (∃ lp', staleLaunchpad.resetGridLights = some lp' ∧ SameSent staleLaunchpad lp') ∧
    (∃ lp', staleLaunchpad.resetRowLights = some lp' ∧ SameSent staleLaunchpad lp') ∧
    (∃ lp', staleLaunchpad.resetTopLights = some lp' ∧ SameSent staleLaunchpad lp') ∧
    (∀ message lp', launchpadEventHandler message staleLaunchpad = some lp' →
      SameSent staleLaunchpad lp') :=
  only_updateLights_touches_last_sent staleLaunchpad 3 4 5 2 9 LaunchpadTopButton.MIXER
    (by decide) (by decide) (by decide) (by decide) (by decide)

/-- C9 fails on the code: on the freshly constructed state (all desired values
-1) `resetRowLights` leaves all 8 desired row values at -1 and zeroes the desired
top values, and `resetTopLights` leaves all 8 desired top values at -1 and zeroes
the desired row values. -/
theorem reset_row_and_top_are_swapped :
    (∃ lp', freshLaunchpad.resetRowLights = some lp' ∧
      (∀ i, lp'.rowLightQueue i = -1) ∧ (∀ i, lp'.topLightQueue i = 0)) ∧
    (∃ lp', freshLaunchpad.resetTopLights = some lp' ∧
      (∀ i, lp'.topLightQueue i = -1) ∧ (∀ i, lp'.rowLightQueue i = 0)) :=
  ⟨⟨_, resetRowLights_eq freshLaunchpad, fun _ => rfl, fun _ => rfl⟩,
    ⟨_, resetTopLights_eq freshLaunchpad, fun _ => rfl, fun _ => rfl⟩⟩

/-- C10. From any state `resetGridLights` returns normally, and afterwards each
of the 64 desired grid values is 0 (so not the sentinel -1), while the desired
row and top arrays are as before. -/
theorem resetGridLights_zeroes_grid (lp : Launchpad) :
    ∃ lp', lp.resetGridLights = some lp' ∧
      (∀ i, lp'.gridLightQueue i = 0 ∧ lp'.gridLightQueue i ≠ -1) ∧
      lp'.rowLightQueue = lp.rowLightQueue ∧
      lp'.topLightQueue = lp.topLightQueue :=
  ⟨_, resetGridLights_eq lp, fun _ => ⟨rfl, by show (0 : Int) ≠ -1; decide⟩, rfl, rfl⟩

/-! ## Decoding: `launchpadEventHandler` -/

theorem handler_row (lp : Launchpad) (d1 d2 : Nat) (h : d1 % 10 = 9) :
    launchpadEventHandler [144, d1, d2] lp =
      some { lp with
        rowQueue := lp.rowQueue ++
          [{ rowIndex := Int.tdiv ((d1 : Int) - 19) 10, pressed := decide (d2 = 127) }] } := by
  simp only [launchpadEventHandler, List.getElem?_cons_zero, List.getElem?_cons_succ, if_true, h]

theorem handler_grid (lp : Launchpad) (d1 d2 : Nat) (h : d1 % 10 ≠ 9) :
    launchpadEventHandler [144, d1, d2] lp =
      some { lp with
        gridQueue := lp.gridQueue ++
          [{ x := ((d1 % 10 : Nat) : Int) - 1, y := 7 - Int.tdiv ((d1 : Int) - 11) 10,
             pressed := decide (d2 = 127) }] } := by
  simp only [launchpadEventHandler, List.getElem?_cons_zero, List.getElem?_cons_succ, if_true, h,
    if_false]

theorem handler_top (lp : Launchpad) (d1 d2 : Nat) :
    launchpadEventHandler [176, d1, d2] lp =
      some { lp with
        topQueue := lp.topQueue ++
          [{ button := ⟨(d1 : Int) - 104⟩, pressed := decide (d2 = 127) }] } := by
  simp [launchpadEventHandler]

theorem handler_other (lp : Launchpad) (d0 d1 d2 : Nat) (h1 : d0 ≠ 144) (h2 : d0 ≠ 176) :
    launchpadEventHandler [d0, d1, d2] lp = some lp := by
  simp only [launchpadEventHandler, List.getElem?_cons_zero, h1, h2, if_false]

/-- C11, as stated, fails: on the freshly constructed state the message
`[0x90, 34, 0]` appends the grid event `x = 3, y = 5, pressed = false`, not one
with `x = 2`. -/
theorem note_34_is_not_x_two :
    (launchpadEventHandler [0x90, 34, 0] freshLaunchpad).map (fun l => l.gridQueue) =
        some [{ x := 3, y := 5, pressed := false }] ∧
      (launchpadEventHandler [0x90, 34, 0] freshLaunchpad).map (fun l => l.gridQueue) ≠
        some [{ x := 2, y := 5, pressed := false }] := by
  decide

/-- C11, amended. In any state the inbound message `[0x90, 34, 0]` appends to the
grid queue one event with `x = 3` (34 mod 10 - 1), `y = 5` (`y_wire = 2`, flipped
to `7 - 2`) and `pressed = false`, and changes nothing else. -/
theorem note_34_decodes_to_3_5 (lp : Launchpad) :
    launchpadEventHandler [0x90, 34, 0] lp =
      some { lp with gridQueue := lp.gridQueue ++ [{ x := 3, y := 5, pressed := false }] } := by
  rw [handler_grid lp 34 0 (by decide)]
  rfl

/-- C12. For a NOTE_ON message whose `data1` is one of 19, 29, ..., 89 the
handler appends to the row queue exactly one event with
`rowIndex = (data1 - 19) / 10` and `pressed = (data2 == 127)`, and leaves the
grid queue, the top queue and everything else as they were; `[0x90, 19, 127]`
gives `rowIndex = 0`, `pressed = true`. -/
theorem row_codes_decode (lp : Launchpad) (data1 d2 : Nat)
    (h : data1 ∈ [19, 29, 39, 49, 59, 69, 79, 89]) :
    launchpadEventHandler [0x90, data1, d2] lp =
        some { lp with
          rowQueue := lp.rowQueue ++
            [{ rowIndex := (((data1 - 19) / 10 : Nat) : Int), pressed := decide (d2 = 127) }] } ∧
      launchpadEventHandler [0x90, 19, 127] lp =
        some { lp with rowQueue := lp.rowQueue ++ [{ rowIndex := 0, pressed := true }] } := by
  constructor
  · have h9 : data1 % 10 = 9 := by
      simp only [List.mem_cons, List.mem_singleton, List.not_mem_nil, or_false] at h
      omega
    have hge : 19 ≤ data1 := by
      simp only [List.mem_cons, List.mem_singleton, List.not_mem_nil, or_false] at h
      omega
    have hidx : Int.tdiv ((data1 : Int) - 19) 10 = (((data1 - 19) / 10 : Nat) : Int) := by
      rw [Int.tdiv_eq_ediv (by omega) (by decide)]
      omega
    rw [handler_row lp data1 d2 h9, hidx]
  · rw [handler_row lp 19 127 (by decide)]
    rfl

/-- Witness for C12 at `data1 = 49`, `data2 = 0`. -/
theorem row_codes_decode_witness :
    launchpadEventHandler [0x90, 49, 0] freshLaunchpad =
        some { freshLaunchpad with
          rowQueue := freshLaunchpad.rowQueue ++
            [{ rowIndex := (((49 - 19) / 10 : Nat) : Int), pressed := decide (0 = 127) }] } ∧
      launchpadEventHandler [0x90, 19, 127] freshLaunchpad =
        some { freshLaunchpad with
          rowQueue := freshLaunchpad.rowQueue ++ [{ rowIndex := 0, pressed := true }] } :=
  row_codes_decode freshLaunchpad 49 0 (by decide)

/-- C13. For a CONTROL_CHANGE message with `104 ≤ data1 ≤ 111` the handler
appends to the top queue exactly one event whose button has ordinal
`data1 - 104` and `pressed = (data2 == 127)`, and leaves the other queues and
everything else as they were; the ordinals 0..7 are `UP`, `DOWN`, `LEFT`,
`RIGHT`, `SESSION`, `USER1`, `USER2`, `MIXER`, and `[0xB0, 104, 127]` gives `UP`
pressed. -/
theorem top_codes_decode (lp : Launchpad) (data1 d2 : Nat)
    (h1 : 104 ≤ data1) (h2 : data1 ≤ 111) :
    launchpadEventHandler [0xB0, data1, d2] lp =
        some { lp with
          topQueue := lp.topQueue ++
            [{ button := ⟨((data1 - 104 : Nat) : Int)⟩, pressed := decide (d2 = 127) }] } ∧
      [LaunchpadTopButton.UP, LaunchpadTopButton.DOWN, LaunchpadTopButton.LEFT,
        LaunchpadTopButton.RIGHT, LaunchpadTopButton.SESSION, LaunchpadTopButton.USER1,
        LaunchpadTopButton.USER2, LaunchpadTopButton.MIXER] =
          (List.range 8).map (fun k => (⟨(k : Int)⟩ : LaunchpadTopButton)) ∧
      launchpadEventHandler [0xB0, 104, 127] lp =
        some { lp with
          topQueue := lp.topQueue ++ [{ button := LaunchpadTopButton.UP, pressed := true }] } := by
  refine ⟨?_, by decide, ?_⟩
  · have hord : (data1 : Int) - 104 = ((data1 - 104 : Nat) : Int) := by omega
    rw [handler_top lp data1 d2, hord]
  · rw [handler_top lp 104 127]
    rfl

/-- Witness for C13 at `data1 = 111` (`MIXER`), `data2 = 0`. -/
theorem top_codes_decode_witness :
    launchpadEventHandler [0xB0, 111, 0] freshLaunchpad =
        some { freshLaunchpad with
          topQueue := freshLaunchpad.topQueue ++
            [{ button := ⟨((111 - 104 : Nat) : Int)⟩, pressed := decide (0 = 127) }] } ∧
      [LaunchpadTopButton.UP, LaunchpadTopButton.DOWN, LaunchpadTopButton.LEFT,
        LaunchpadTopButton.RIGHT, LaunchpadTopButton.SESSION, LaunchpadTopButton.USER1,
        LaunchpadTopButton.USER2, LaunchpadTopButton.MIXER] =
          (List.range 8).map (fun k => (⟨(k : Int)⟩ : LaunchpadTopButton)) ∧
      launchpadEventHandler [0xB0, 104, 127] freshLaunchpad =
        some { freshLaunchpad with
          topQueue := freshLaunchpad.topQueue ++
            [{ button := LaunchpadTopButton.UP, pressed := true }] } :=
  top_codes_decode freshLaunchpad 111 0 (by decide) (by decide)

/-- The `int` division `(data1 - 11) / 10` of the grid branch lands in `0 .. 7`
exactly for `2 ≤ data1 ≤ 90`: it truncates toward zero, so `-9 .. -1` give 0. -/
theorem grid_wire_row_in_range (d1 : Nat) :
    (0 ≤ Int.tdiv ((d1 : Int) - 11) 10 ∧ Int.tdiv ((d1 : Int) - 11) 10 ≤ 7) ↔
      (2 ≤ d1 ∧ d1 ≤ 90) := by
  by_cases h : 11 ≤ d1
  · rw [Int.tdiv_eq_ediv (by omega) (by decide)]
    omega
  · have hlt : d1 < 11 := by omega
    interval_cases d1 <;> decide

/-- The `int` division `(data1 - 19) / 10` of the row branch lands in `0 .. 7`
exactly for `10 ≤ data1 ≤ 98`. -/
theorem row_wire_index_in_range (d1 : Nat) :
    (0 ≤ Int.tdiv ((d1 : Int) - 19) 10 ∧ Int.tdiv ((d1 : Int) - 19) 10 ≤ 7) ↔
      (10 ≤ d1 ∧ d1 ≤ 98) := by
  by_cases h : 19 ≤ d1
  · rw [Int.tdiv_eq_ediv (by omega) (by decide)]
    omega
  · have hlt : d1 < 19 := by omega
    interval_cases d1 <;> decide

/-- C14, as stated, fails: on the freshly constructed state `[0x90, 0, 127]`
appends the grid event `x = -1, y = 8` and `[0x90, 99, 0]` appends the row event
`rowIndex = 8`; neither message is rejected. -/
theorem out_of_range_note_still_appends :
    (launchpadEventHandler [0x90, 0, 127] freshLaunchpad).map (fun l => l.gridQueue) =
        some [{ x := -1, y := 8, pressed := true }] ∧
      (launchpadEventHandler [0x90, 99, 0] freshLaunchpad).map (fun l => l.rowQueue) =
        some [{ rowIndex := 8, pressed := false }] := by
  decide

/-- C14, amended. The handler checks no range and has no decode failure: every
NOTE_ON message appends exactly one event.  When `data1 mod 10 = 9` it is the row
event with `rowIndex = (data1 - 19) / 10`, otherwise the grid event with
`x = data1 mod 10 - 1` and `y = 7 - (data1 - 11) / 10` (`int` divisions, truncating
toward zero), whatever these values are.  The row index lies in `[0, 7]` exactly
when `data1` is one of 19, 29, ..., 89; the grid coordinates lie in `[0, 7]` when
`data1` is one of the 64 grid codes, and only then or for `2 ≤ data1 ≤ 8`.  For
every other `data1` the appended event carries an address outside the range. -/
theorem note_on_always_appends (lp : Launchpad) (d1 d2 : Nat) :
    (d1 % 10 = 9 →
      launchpadEventHandler [0x90, d1, d2] lp =
          some { lp with
            rowQueue := lp.rowQueue ++
              [{ rowIndex := Int.tdiv ((d1 : Int) - 19) 10, pressed := decide (d2 = 127) }] } ∧
        ((0 ≤ Int.tdiv ((d1 : Int) - 19) 10 ∧ Int.tdiv ((d1 : Int) - 19) 10 ≤ 7) ↔
          d1 ∈ [19, 29, 39, 49, 59, 69, 79, 89])) ∧
    (d1 % 10 ≠ 9 →
      launchpadEventHandler [0x90, d1, d2] lp =
          some { lp with
            gridQueue := lp.gridQueue ++
              [{ x := ((d1 % 10 : Nat) : Int) - 1, y := 7 - Int.tdiv ((d1 : Int) - 11) 10,
                 pressed := decide (d2 = 127) }] } ∧
        (11 ≤ d1 ∧ d1 ≤ 88 ∧ 1 ≤ d1 % 10 ∧ d1 % 10 ≤ 8 →
          0 ≤ ((d1 % 10 : Nat) : Int) - 1 ∧ ((d1 % 10 : Nat) : Int) - 1 ≤ 7 ∧
          0 ≤ 7 - Int.tdiv ((d1 : Int) - 11) 10 ∧ 7 - Int.tdiv ((d1 : Int) - 11) 10 ≤ 7) ∧
        (0 ≤ ((d1 % 10 : Nat) : Int) - 1 ∧ ((d1 % 10 : Nat) : Int) - 1 ≤ 7 ∧
          0 ≤ 7 - Int.tdiv ((d1 : Int) - 11) 10 ∧ 7 - Int.tdiv ((d1 : Int) - 11) 10 ≤ 7 →
          (11 ≤ d1 ∧ d1 ≤ 88 ∧ 1 ≤ d1 % 10 ∧ d1 % 10 ≤ 8) ∨ (2 ≤ d1 ∧ d1 ≤ 8))) := by
  constructor
  · intro h
    refine ⟨handler_row lp d1 d2 h, ?_⟩
    rw [row_wire_index_in_range d1]
    simp only [List.mem_cons, List.mem_singleton, List.not_mem_nil, or_false]
    omega
  · intro h
    have hy := grid_wire_row_in_range d1
    refine ⟨handler_grid lp d1 d2 h, ?_, ?_⟩
    · intro hcode
      have := hy.mpr (by omega)
      omega
    · rintro ⟨hx0, hx7, hy0, hy7⟩
      have := hy.mp ⟨by omega, by omega⟩
      omega

/-- Witness for the amended C14: `data1 = 0` appends the grid event `x = -1`,
`y = 8`, `data1 = 99` the row event `rowIndex = 8`, and the grid code 34 the
in-range event `x = 3`, `y = 5`. -/
theorem note_on_always_appends_witness :
    (launchpadEventHandler [0x90, 0, 127] freshLaunchpad =
        some { freshLaunchpad with
          gridQueue := freshLaunchpad.gridQueue ++ [{ x := -1, y := 8, pressed := true }] }) ∧
    (launchpadEventHandler [0x90, 99, 0] freshLaunchpad =
        some { freshLaunchpad with
          rowQueue := freshLaunchpad.rowQueue ++ [{ rowIndex := 8, pressed := false }] } ∧
      ((0 ≤ Int.tdiv (((99 : Nat) : Int) - 19) 10 ∧ Int.tdiv (((99 : Nat) : Int) - 19) 10 ≤ 7) ↔
        99 ∈ [19, 29, 39, 49, 59, 69, 79, 89])) ∧
    (launchpadEventHandler [0x90, 34, 0] freshLaunchpad =
        some { freshLaunchpad with
          gridQueue := freshLaunchpad.gridQueue ++ [{ x := 3, y := 5, pressed := false }] }) :=
  ⟨((note_on_always_appends freshLaunchpad 0 127).2 (by decide)).1,
    (note_on_always_appends freshLaunchpad 99 0).1 (by decide),
    ((note_on_always_appends freshLaunchpad 34 0).2 (by decide)).1⟩

/-- C15. Whatever the three bytes are, a message that produces an event produces
it with `pressed = true` exactly when the third byte is 127: a NOTE_ON message
appends one row or one grid event, a CONTROL_CHANGE message one top event, each
with that flag, and no value of the third byte makes the handler reject the
message; any other status byte produces no event. -/
theorem pressed_iff_velocity_127 (lp : Launchpad) (d0 d1 d2 : Nat) :
    (d0 = 0x90 ∧ d1 % 10 = 9 ∧
      ∃ r p, launchpadEventHandler [d0, d1, d2] lp =
          some { lp with rowQueue := lp.rowQueue ++ [{ rowIndex := r, pressed := p }] } ∧
        (p = true ↔ d2 = 127)) ∨
    (d0 = 0x90 ∧ d1 % 10 ≠ 9 ∧
      ∃ x y p, launchpadEventHandler [d0, d1, d2] lp =
          some { lp with gridQueue := lp.gridQueue ++ [{ x := x, y := y, pressed := p }] } ∧
        (p = true ↔ d2 = 127)) ∨
    (d0 = 0xB0 ∧
      ∃ b p, launchpadEventHandler [d0, d1, d2] lp =
          some { lp with topQueue := lp.topQueue ++ [{ button := b, pressed := p }] } ∧
        (p = true ↔ d2 = 127)) ∨
    (d0 ≠ 0x90 ∧ d0 ≠ 0xB0 ∧ launchpadEventHandler [d0, d1, d2] lp = some lp) := by
  by_cases h0 : d0 = 0x90
  · subst h0
    by_cases h9 : d1 % 10 = 9
    · exact Or.inl ⟨rfl, h9, _, _, handler_row lp d1 d2 h9, decide_eq_true_iff⟩
    · exact Or.inr (Or.inl ⟨rfl, h9, _, _, _, handler_grid lp d1 d2 h9, decide_eq_true_iff⟩)
  · by_cases h1 : d0 = 0xB0
    · subst h1
      exact Or.inr (Or.inr (Or.inl ⟨rfl, _, _, handler_top lp d1 d2, decide_eq_true_iff⟩))
    · exact Or.inr (Or.inr (Or.inr ⟨h0, h1, handler_other lp d0 d1 d2 h0 h1⟩))

/-- C16. A 3-byte message whose first byte is neither `0x90` nor `0xB0` makes the
handler return the state it was given: no queue grows and no light array
changes. -/
theorem other_status_is_ignored (lp : Launchpad) (d0 d1 d2 : Nat)
    (h1 : d0 ≠ 0x90) (h2 : d0 ≠ 0xB0) :
    launchpadEventHandler [d0, d1, d2] lp = some lp :=
  handler_other lp d0 d1 d2 h1 h2

/-- Witness for C16 at the NOTE_OFF message `[0x80, 34, 0]`. -/
theorem other_status_is_ignored_witness :
    launchpadEventHandler [0x80, 34, 0] staleLaunchpad = some staleLaunchpad :=
  other_status_is_ignored staleLaunchpad 0x80 34 0 (by decide) (by decide)

/-- C20, as stated, fails: `[0x90, 5, 0]` appends the grid event `x = 4, y = 7`,
both coordinates in `[0, 7]`, although 5 is not a grid code (`(5 - 11) / 10`
truncates to 0). -/
theorem note_five_lands_in_range :
    (launchpadEventHandler [0x90, 5, 0] freshLaunchpad).map (fun l => l.gridQueue) =
        some [{ x := 4, y := 7, pressed := false }] ∧
      ¬ (11 ≤ 5 ∧ 5 ≤ 88 ∧ 1 ≤ 5 % 10 ∧ 5 % 10 ≤ 8) := by
  decide

/-- C20, amended. For a NOTE_ON message whose `data1` is not congruent to 9 mod
10, the handler appends one grid event, and its coordinates both lie in `[0, 7]`
if and only if `data1` is one of the 64 grid codes (`11 ≤ data1 ≤ 88` with
`data1 mod 10` between 1 and 8) or `2 ≤ data1 ≤ 8`, where the truncating division
`(data1 - 11) / 10` gives 0 and so `y = 7`. -/
theorem grid_event_in_range_iff (lp : Launchpad) (d1 d2 : Nat) (h : d1 % 10 ≠ 9) :
    ∃ e, launchpadEventHandler [0x90, d1, d2] lp =
        some { lp with gridQueue := lp.gridQueue ++ [e] } ∧
      ((0 ≤ e.x ∧ e.x ≤ 7 ∧ 0 ≤ e.y ∧ e.y ≤ 7) ↔
        ((11 ≤ d1 ∧ d1 ≤ 88 ∧ 1 ≤ d1 % 10 ∧ d1 % 10 ≤ 8) ∨ (2 ≤ d1 ∧ d1 ≤ 8))) := by
  refine ⟨_, handler_grid lp d1 d2 h, ?_⟩
  have hy := grid_wire_row_in_range d1
  simp only
  constructor
  · rintro ⟨hx0, hx7, hy0, hy7⟩
    have := hy.mp ⟨by omega, by omega⟩
    omega
  · intro hcode
    have := hy.mpr (by omega)
    omega

/-- Witness for the amended C20 at `data1 = 34`. -/
theorem grid_event_in_range_iff_witness :
    ∃ e, launchpadEventHandler [0x90, 34, 0] freshLaunchpad =
        some { freshLaunchpad with gridQueue := freshLaunchpad.gridQueue ++ [e] } ∧
      ((0 ≤ e.x ∧ e.x ≤ 7 ∧ 0 ≤ e.y ∧ e.y ≤ 7) ↔
        ((11 ≤ 34 ∧ 34 ≤ 88 ∧ 1 ≤ 34 % 10 ∧ 34 % 10 ≤ 8) ∨ (2 ≤ 34 ∧ 34 ≤ 8))) :=
  grid_event_in_range_iff freshLaunchpad 34 0 (by decide)

/-! ## Sequences of inbound messages -/

theorem filterMap_cons_toList {α β : Type} (f : α → Option β) (a : α) (l : List α) :
    (a :: l).filterMap f = (f a).toList ++ l.filterMap f := by
  rw [List.filterMap_cons]
  cases f a <;> rfl

/-- One call of the handler on a 3-byte message appends, to each queue, the event
of that queue's kind the message decodes to, if any. -/
theorem handler_appends_decoded (message : List Nat) (hm : message.length = 3)
    (lp : Launchpad) :
    launchpadEventHandler message lp =
      some { lp with
        gridQueue := lp.gridQueue ++ (decodeGridEvent message).toList
        rowQueue := lp.rowQueue ++ (decodeRowEvent message).toList
        topQueue := lp.topQueue ++ (decodeTopEvent message).toList } := by
  match message, hm with
  | [d0, d1, d2], _ =>
    cases lp
    by_cases h0 : d0 = 144
    · subst h0
      by_cases h9 : d1 % 10 = 9
      · rw [handler_row _ d1 d2 h9]
        simp [decodeGridEvent, decodeRowEvent, decodeTopEvent, h9]
      · rw [handler_grid _ d1 d2 h9]
        simp [decodeGridEvent, decodeRowEvent, decodeTopEvent, h9]
    · by_cases h1 : d0 = 176
      · subst h1
        rw [handler_top _ d1 d2]
        simp [decodeGridEvent, decodeRowEvent, decodeTopEvent]
      · rw [handler_other _ d0 d1 d2 h0 h1]
        simp [decodeGridEvent, decodeRowEvent, decodeTopEvent, h0, h1]

/-- C17. For every sequence of 3-byte messages handled in arrival order the
handler returns normally, and each of the three queues ends up as its initial
contents followed by the events decoded from the messages of its own kind, in
arrival order; nothing else in the state changes.  The initial contents stay as
a prefix, so no existing entry is removed, rewritten or reordered. -/
theorem queues_keep_arrival_order (messages : List (List Nat)) (lp : Launchpad)
    (h3 : ∀ message ∈ messages, message.length = 3) :
    handleAll messages lp =
      some { lp with
        gridQueue := lp.gridQueue ++ messages.filterMap decodeGridEvent
        rowQueue := lp.rowQueue ++ messages.filterMap decodeRowEvent
        topQueue := lp.topQueue ++ messages.filterMap decodeTopEvent } := by
  unfold handleAll
  induction messages generalizing lp with
  | nil =>
    cases lp
    simp
  | cons m ms ih =>
    rw [List.foldlM_cons, handler_appends_decoded m (h3 m (List.mem_cons_self m ms))]
    simp only [Option.bind_eq_bind, Option.some_bind]
    rw [ih _ (fun k hk => h3 k (List.mem_cons_of_mem m hk))]
    simp only [filterMap_cons_toList, List.append_assoc]

/-- Witness for C17: three grid messages with a row, a top and an ignored
message in between, handled from a state whose grid queue is not empty. -/
theorem queues_keep_arrival_order_witness :
    handleAll [[0x90, 11, 127], [0x90, 19, 127], [0x90, 34, 0], [0xB0, 104, 127], [0x80, 1, 2],
          [0x90, 88, 5]]
        { freshLaunchpad with gridQueue := [{ x := 7, y := 7, pressed := true }] } =
      some { freshLaunchpad with
        gridQueue := [{ x := 7, y := 7, pressed := true }] ++
          [[0x90, 11, 127], [0x90, 19, 127], [0x90, 34, 0], [0xB0, 104, 127], [0x80, 1, 2],
            [0x90, 88, 5]].filterMap decodeGridEvent
        rowQueue := freshLaunchpad.rowQueue ++
          [[0x90, 11, 127], [0x90, 19, 127], [0x90, 34, 0], [0xB0, 104, 127], [0x80, 1, 2],
            [0x90, 88, 5]].filterMap decodeRowEvent
        topQueue := freshLaunchpad.topQueue ++
          [[0x90, 11, 127], [0x90, 19, 127], [0x90, 34, 0], [0xB0, 104, 127], [0x80, 1, 2],
            [0x90, 88, 5]].filterMap decodeTopEvent } :=
  queues_keep_arrival_order _ _ (by decide)

/-! ## The first flush and the velocity byte -/

theorem lightMessages_all_differ {n : Nat} (enc : Fin n → Int → List Nat) (updateAll : Bool)
    (desired cached : Fin n → Int) (l : List (Fin n)) (h : ∀ i, cached i ≠ desired i) :
    lightMessages enc updateAll desired cached l = l.map fun i => enc i (desired i) := by
  induction l with
  | nil => rfl
  | cons i l ih =>
    rw [lightMessages_cons, ih, if_pos (Or.inl (h i))]
    rfl

/-- What `updateLights` sends, with the bytes written out. -/
theorem sentMessages_eq_narrowed (lp : Launchpad) (updateAll : Bool) :
    sentMessages lp updateAll = narrowedMessages lp updateAll := by
  have e1 : ∀ i : Fin 64, gridLightData i (lp.gridLightQueue i) =
      [0x90, i.val % 8 + (7 - i.val / 8) * 10 + 11, (lp.gridLightQueue i % 256).toNat] := by
    intro i
    have h3 : (i.val % 8 + (7 - i.val / 8) * 10 + 11) % 256 =
        i.val % 8 + (7 - i.val / 8) * 10 + 11 := by omega
    simp only [gridLightData, h3, toUChar]
  have e2 : ∀ i : Fin 8, rowLightData i (lp.rowLightQueue i) =
      [0x90, 19 + 10 * i.val, (lp.rowLightQueue i % 256).toNat] := by
    intro i
    have h3 : (19 + 10 * i.val) % 256 = 19 + 10 * i.val := by omega
    simp only [rowLightData, h3, toUChar]
  have e3 : ∀ i : Fin 8, topLightData i (lp.topLightQueue i) =
      [0xB0, 104 + i.val, (lp.topLightQueue i % 256).toNat] := by
    intro i
    have h3 : (104 + i.val) % 256 = 104 + i.val := by omega
    simp only [topLightData, h3, toUChar]
  simp only [sentMessages, narrowedMessages, lightMessages_eq_map_filter, e1, e2, e3]

/-- C18 fails on the code: the constructor writes only the three desired arrays.
When the storage of the cached arrays holds -1 everywhere, the first
`updateLights(false)` after construction sends no message at all; when it holds
0 everywhere, the same call sends 80. -/
theorem first_flush_depends_on_storage :
    (unluckyLaunchpad.updateLights false).midiOut = [] ∧
      (freshLaunchpad.updateLights false).midiOut.length = 80 := by
  constructor
  · rw [updateLights_eq, sentMessages_synced unluckyLaunchpad rfl rfl rfl]
    rfl
  · rw [updateLights_eq]
    have hne : ∀ k : Nat, ∀ i : Fin k,
        (fun _ : Fin k => (0 : Int)) i ≠ (fun _ : Fin k => (-1 : Int)) i := by
      intro k i
      show (0 : Int) ≠ -1
      decide
    have hg := lightMessages_all_differ gridLightData false freshLaunchpad.gridLightQueue
      freshLaunchpad.gridCachedLightQueue (List.finRange 64) (hne 64)
    have hr := lightMessages_all_differ rowLightData false freshLaunchpad.rowLightQueue
      freshLaunchpad.rowCachedLightQueue (List.finRange 8) (hne 8)
    have ht := lightMessages_all_differ topLightData false freshLaunchpad.topLightQueue
      freshLaunchpad.topCachedLightQueue (List.finRange 8) (hne 8)
    simp only [sentMessages, hg, hr, ht, List.length_append, List.length_map,
      List.length_finRange]
    rfl

/-- C19. The third byte of every message `updateLights` sends is the desired value
of its address reduced modulo 256: the messages sent are those of the
specification's flush with that byte.  For a value in `[0, 255]` the byte is the
value itself, and right after construction, where every address holds the
sentinel -1, `updateLights(true)` sends all 80 messages with third byte 255. -/
theorem velocity_byte_is_desired_mod_256 (lp : Launchpad) (forceAll : Bool) (v : Int)
    (hv0 : 0 ≤ v) (hv : v ≤ 255) (portNumber : Int) (gridCached : Fin 64 → Int)
    (topCached rowCached : Fin 8 → Int) :
    (lp.updateLights forceAll).midiOut = lp.midiOut ++ narrowedMessages lp forceAll ∧
      toUChar v = v.toNat ∧ (v % 256).toNat = v.toNat ∧
      ((Launchpad.Launchpad portNumber gridCached topCached rowCached).updateLights true).midiOut =
        (List.finRange 64).map (fun i => [0x90, i.val % 8 + (7 - i.val / 8) * 10 + 11, 255])
        ++ (List.finRange 8).map (fun i => [0x90, 19 + 10 * i.val, 255])
        ++ (List.finRange 8).map (fun i => [0xB0, 104 + i.val, 255]) := by
  refine ⟨?_, toUChar_of_byte v hv0 hv, toUChar_of_byte v hv0 hv, ?_⟩
  · rw [updateLights_eq, sentMessages_eq_narrowed]
  · rw [updateLights_eq, sentMessages_eq_narrowed]
    simp [narrowedMessages, Launchpad.Launchpad]

/-- Witness for C19 at the value 200, on a state with stale entries. -/
theorem velocity_byte_is_desired_mod_256_witness :
    (staleLaunchpad.updateLights false).midiOut =
        staleLaunchpad.midiOut ++ narrowedMessages staleLaunchpad false ∧
      toUChar 200 = (200 : Int).toNat ∧ ((200 : Int) % 256).toNat = (200 : Int).toNat ∧
      ((Launchpad.Launchpad 0 (fun _ => 7) (fun _ => 7) (fun _ => 7)).updateLights true).midiOut =
        (List.finRange 64).map (fun i => [0x90, i.val % 8 + (7 - i.val / 8) * 10 + 11, 255])
        ++ (List.finRange 8).map (fun i => [0x90, 19 + 10 * i.val, 255])
        ++ (List.finRange 8).map (fun i => [0xB0, 104 + i.val, 255]) :=
  velocity_byte_is_desired_mod_256 staleLaunchpad false 200 (by decide) (by decide) 0
    (fun _ => 7) (fun _ => 7) (fun _ => 7)
